import Mathlib

/-!
Shallow embedding of `src/aury/sdk/storage/storage/cos.py` (class `COSStorage`),
a Tencent-COS object-storage backend implemented directly over the COS REST API.

Modelling conventions:
- Python `str` is Lean `String`; `bytes` is `List Nat` (each element one byte value).
- Python machine-free integers are `Int` (or `Nat` where the source value is a length).
- Optional/`None`-able fields are `Option String`; Python truthiness of such a field
  (`if x:`) is `truthy` below (`None` and `""` are falsy).
- The async HTTP transport (`httpx`) is an oracle `HttpRequest → HttpResult` passed to
  each operation; each operation returns its result together with the list of HTTP
  requests it issued (in order), so "raised before any network I/O" is "trace = []".
- `int(time.time())` is an explicit `now : Int` argument (injected clock).
- Raised exceptions become `Except StorageErr`; `StorageErr.backend` is
  `StorageBackendError`, `StorageErr.notFound` is `StorageNotFoundError`, and
  `StorageErr.valueError` models Python's builtin `ValueError` (from `int(...)`).
- Python's ASCII-only case folding suffices here, so `Char.toLower` models `str.lower`
  (all strings the signer case-folds are ASCII header/method/param names).
-/

namespace COS

/-- Truthiness of a Python `str | None` value: `None` and `""` are falsy. -/
def truthy : Option String → Bool
  | none => false
  | some s => !(s == "")

/-- Python `a or b` on `str | None` values: returns `a` when truthy, else `b`. -/
def pyOr (a b : Option String) : Option String :=
  if truthy a then a else b

/-- Python `str.lower()` (ASCII case folding, which covers every use in the source). -/
def lowerStr (s : String) : String :=
  String.mk (s.data.map Char.toLower)

/-- Python `s.startswith(pre)`: character-level prefix test. -/
def pyStartsWith (s pre : String) : Bool :=
  pre.data.isPrefixOf s.data

/-- Sublist (contiguous) test used to model Python's `needle in hay` on strings. -/
def subChars : List Char → List Char → Bool
  | needle, [] => needle.isEmpty
  | needle, c :: rest => needle.isPrefixOf (c :: rest) || subChars needle rest

/-- Python `needle in hay` for strings (substring containment). -/
def pyInStr (needle hay : String) : Bool :=
  subChars needle.data hay.data

/-- Python `s.rstrip("/")`: drop every trailing `'/'`. -/
def rstripSlash (s : String) : String :=
  String.mk ((s.data.reverse.dropWhile (fun c => c == '/')).reverse)

/-- Python `s.strip(ch)` for a single character: drop it from both ends. -/
def stripChar (ch : Char) (s : String) : String :=
  String.mk (((s.data.dropWhile (fun c => c == ch)).reverse.dropWhile (fun c => c == ch)).reverse)

/-- UTF-8 encoding of one character, as byte values (models `str.encode("utf-8")`
per character; Python encodes the whole string, which agrees codepoint-wise). -/
def utf8Bytes (c : Char) : List Nat :=
  let n := c.toNat
  if n < 128 then [n]
  else if n < 2048 then [192 + n / 64, 128 + n % 64]
  else if n < 65536 then [224 + n / 4096, 128 + (n / 64) % 64, 128 + n % 64]
  else [240 + n / 262144, 128 + (n / 4096) % 64, 128 + (n / 64) % 64, 128 + n % 64]

/-- UTF-8 bytes of a whole string. -/
def strBytes (s : String) : List Nat :=
  (s.data.map utf8Bytes).flatten

/-- Uppercase hex digit (Python `urllib.parse.quote` uses uppercase percent-escapes). -/
def hexU (n : Nat) : Char :=
  if n < 10 then Char.ofNat (48 + n) else Char.ofNat (55 + n)

/-- Lowercase hex digit (Python `hexdigest()` is lowercase). -/
def hexL (n : Nat) : Char :=
  if n < 10 then Char.ofNat (48 + n) else Char.ofNat (87 + n)

/-- Percent-escape of one byte, uppercase, as in `urllib.parse.quote`. -/
def pctByte (b : Nat) : String :=
  String.mk ['%', hexU (b / 16), hexU (b % 16)]

/-- One character under `urllib.parse.quote(_, safe)`: ASCII letters, digits and
`_.-~` are always safe, plus the caller's `safe` characters; anything else is
percent-escaped per UTF-8 byte. -/
def quoteChar (safe : String) (c : Char) : String :=
  if c.isAlpha || c.isDigit || c == '_' || c == '.' || c == '-' || c == '~' || safe.data.contains c then
    String.singleton c
  else
    String.join ((utf8Bytes c).map pctByte)

/-- Python `urllib.parse.quote(s, safe=safe)`. -/
def quotePy (s : String) (safe : String) : String :=
  String.join (s.data.map (quoteChar safe))

/-- Lowercase hex string of a byte list (models `.hexdigest()`). -/
def hexLower (bytes : List Nat) : String :=
  String.join (bytes.map (fun b => String.mk [hexL (b / 16), hexL (b % 16)]))

/-- Value of an all-digit character list, `none` when empty or non-digit. -/
def digitsVal (cs : List Char) : Option Nat :=
  if cs.isEmpty then none
  else if cs.all Char.isDigit then
    some (cs.foldl (fun acc c => acc * 10 + (c.toNat - 48)) 0)
  else none

/-- Python `int(s)` on the string shapes relevant here: an optional sign followed by
decimal digits; anything else raises `ValueError` (whitespace/underscore forms of
CPython are not exercised by this code's inputs). -/
def pyInt (s : String) : Except String Int :=
  let core : Option Int :=
    match s.data with
    | '-' :: rest => (digitsVal rest).map (fun n => -(n : Int))
    | '+' :: rest => (digitsVal rest).map (fun n => (n : Int))
    | rest => (digitsVal rest).map (fun n => (n : Int))
  match core with
  | some n => .ok n
  | none => .error ("invalid literal for int with base 10: " ++ s)

/-! SHA-1 and HMAC-SHA1, over byte lists, with 32-bit words as `Nat` reduced
modulo `4294967296` (faithful to `hashlib.sha1` / `hmac.new(·, ·, hashlib.sha1)`). -/

/-- Left rotation of a 32-bit word held in a `Nat`. -/
def rotl (n x : Nat) : Nat :=
  ((x <<< n) % 4294967296) ||| (x >>> (32 - n))

/-- Big-endian 4-byte groups to 32-bit words. -/
def bytesToWords : List Nat → List Nat
  | b0 :: b1 :: b2 :: b3 :: rest => (((b0 * 256 + b1) * 256 + b2) * 256 + b3) :: bytesToWords rest
  | _ => []

/-- Group a word list into 16-word blocks. -/
def toBlocks16 : List Nat → List (List Nat)
  | w0 :: w1 :: w2 :: w3 :: w4 :: w5 :: w6 :: w7 :: w8 :: w9 :: w10 :: w11 :: w12 :: w13 :: w14 :: w15 :: rest =>
      [w0, w1, w2, w3, w4, w5, w6, w7, w8, w9, w10, w11, w12, w13, w14, w15] :: toBlocks16 rest
  | _ => []

/-- SHA-1 message padding: `0x80`, zeros, and the 64-bit big-endian bit length. -/
def sha1PadBytes (msg : List Nat) : List Nat :=
  let len := msg.length
  let k := (64 - ((len + 9) % 64)) % 64
  let bitLen := len * 8
  msg ++ [128] ++ List.replicate k 0 ++
    [(bitLen / 72057594037927936) % 256, (bitLen / 281474976710656) % 256,
     (bitLen / 1099511627776) % 256, (bitLen / 4294967296) % 256,
     (bitLen / 16777216) % 256, (bitLen / 65536) % 256, (bitLen / 256) % 256, bitLen % 256]

/-- SHA-1 round function. -/
def sha1F (i b c d : Nat) : Nat :=
  if i < 20 then (b &&& c) ||| ((4294967295 ^^^ b) &&& d)
  else if i < 40 then b ^^^ c ^^^ d
  else if i < 60 then (b &&& c) ||| (b &&& d) ||| (c &&& d)
  else b ^^^ c ^^^ d

/-- SHA-1 round constants. -/
def sha1K (i : Nat) : Nat :=
  if i < 20 then 1518500249
  else if i < 40 then 1859775393
  else if i < 60 then 2400959708
  else 3395469782

/-- SHA-1 message schedule: 80 words extended from a 16-word block. -/
def sha1Sched (block : List Nat) : Array Nat :=
  (List.range 64).foldl
    (fun w j =>
      let i := j + 16
      w.push (rotl 1 ((w.getD (i - 3) 0) ^^^ (w.getD (i - 8) 0) ^^^ (w.getD (i - 14) 0) ^^^ (w.getD (i - 16) 0))))
    block.toArray

/-- SHA-1 initial state. -/
def sha1Init : Nat × Nat × Nat × Nat × Nat :=
  (1732584193, 4023233417, 2562383102, 271733878, 3285377520)

/-- SHA-1 compression of one 16-word block. -/
def sha1Compress (h : Nat × Nat × Nat × Nat × Nat) (block : List Nat) : Nat × Nat × Nat × Nat × Nat :=
  let w := sha1Sched block
  let st := (List.range 80).foldl
    (fun st i =>
      let a := st.1
      let b := st.2.1
      let c := st.2.2.1
      let d := st.2.2.2.1
      let e := st.2.2.2.2
      let temp := (rotl 5 a + sha1F i b c d + e + sha1K i + w.getD i 0) % 4294967296
      (temp, a, rotl 30 b, c, d))
    h
  (((h.1 + st.1) % 4294967296), ((h.2.1 + st.2.1) % 4294967296), ((h.2.2.1 + st.2.2.1) % 4294967296),
   ((h.2.2.2.1 + st.2.2.2.1) % 4294967296), ((h.2.2.2.2 + st.2.2.2.2) % 4294967296))

/-- Big-endian bytes of a 32-bit word list. -/
def wordsToBytes : List Nat → List Nat
  | [] => []
  | w :: rest => (w / 16777216) % 256 :: (w / 65536) % 256 :: (w / 256) % 256 :: w % 256 :: wordsToBytes rest

/-- SHA-1 digest (20 bytes) of a byte list. -/
def sha1Bytes (msg : List Nat) : List Nat :=
  let blocks := toBlocks16 (bytesToWords (sha1PadBytes msg))
  let h := blocks.foldl sha1Compress sha1Init
  wordsToBytes [h.1, h.2.1, h.2.2.1, h.2.2.2.1, h.2.2.2.2]

/-- HMAC-SHA1 (block size 64), as `hmac.new(key, msg, hashlib.sha1)`. -/
def hmacSha1 (key msg : List Nat) : List Nat :=
  let k0 := if key.length > 64 then sha1Bytes key else key
  let k1 := k0 ++ List.replicate (64 - k0.length) 0
  let inner := sha1Bytes (k1.map (fun b => b ^^^ 54) ++ msg)
  sha1Bytes (k1.map (fun b => b ^^^ 92) ++ inner)

/-! Ordering used by Python `sorted`: strings compare codepoint-lexicographically,
`dict.items()` tuples lexicographically on `(key, value)`. Since this order is
antisymmetric (equal-comparing pairs are equal), every correct sort — in
particular `List.insertionSort` below — produces exactly CPython's output. -/

/-- Codepoint-lexicographic `≤` on character lists (Python string comparison). -/
def charsLe : List Char → List Char → Bool
  | [], _ => true
  | _ :: _, [] => false
  | a :: as, b :: bs =>
    if a.toNat < b.toNat then true
    else if b.toNat < a.toNat then false
    else charsLe as bs

/-- Python `a <= b` on strings. -/
def strLeB (a b : String) : Bool :=
  charsLe a.data b.data

/-- Python tuple order on `(str, str)` pairs: key first, value breaks ties. -/
def pairLeB (a b : String × String) : Bool :=
  if a.1 == b.1 then strLeB a.2 b.2 else strLeB a.1 b.1

/-- Propositional form of `pairLeB` (for `List.Sorted`). -/
def PairLe (a b : String × String) : Prop :=
  pairLeB a b = true

instance : DecidableRel PairLe := fun a b =>
  inferInstanceAs (Decidable (pairLeB a b = true))

/-- Propositional form of `strLeB`. -/
def StrLe (a b : String) : Prop :=
  strLeB a b = true

instance : DecidableRel StrLe := fun a b =>
  inferInstanceAs (Decidable (strLeB a b = true))

/-- Python `sorted` on a list of `(key, value)` string pairs. -/
def sortPairs (l : List (String × String)) : List (String × String) :=
  List.insertionSort PairLe l

/-- Python `sorted` on a list of strings. -/
def sortStrs (l : List String) : List String :=
  List.insertionSort StrLe l

/-! Data model (from `.models` / `.exceptions` usage in the source). -/

/-- Error taxonomy as imported by the source: `StorageBackendError` and
`StorageNotFoundError` from `aury.sdk.storage.exceptions`, plus Python's builtin
`ValueError` (reachable via `int(...)` on response headers). -/
inductive StorageErr where
  | backend (msg : String)
  | notFound (msg : String)
  | valueError (msg : String)
deriving DecidableEq

/-- Configuration supplied at client construction (fields as used by `cos.py`). -/
structure StorageConfig where
  access_key_id : Option String
  access_key_secret : Option String
  session_token : Option String
  endpoint : Option String
  region : Option String
  bucket_name : Option String
deriving DecidableEq

/-- File descriptor for uploads (fields as used by `cos.py`). A readable stream in
`file.data` is modelled by the byte sequence its `read()` returns; `None` reads as
`b""` (source `_read_file_data`). -/
structure StorageFile where
  object_name : String
  data : Option (List Nat)
  bucket_name : Option String
  content_type : Option String
  metadata : List (String × String)
deriving DecidableEq

/-- Result of a successful upload. -/
structure UploadResult where
  url : String
  bucket_name : String
  object_name : String
  etag : Option String
deriving DecidableEq

/-- One HTTP request as issued through `httpx`. -/
structure HttpRequest where
  method : String
  url : String
  headers : List (String × String)
  body : List Nat
deriving DecidableEq

/-- One HTTP response (`content` is the raw body bytes, `text` its decoded form as
used in error messages). -/
structure HttpResponse where
  status : Nat
  headers : List (String × String)
  body : List Nat
  text : String
deriving DecidableEq

/-- Transport outcome: a response, or an `httpx.RequestError` with its message. -/
inductive HttpResult where
  | ok (resp : HttpResponse)
  | err (msg : String)
deriving DecidableEq

instance {ε α : Type} [DecidableEq ε] [DecidableEq α] : DecidableEq (Except ε α) := fun a b =>
  match a, b with
  | .ok x, .ok y => if h : x = y then .isTrue (by rw [h]) else .isFalse (by simp [h])
  | .error x, .error y => if h : x = y then .isTrue (by rw [h]) else .isFalse (by simp [h])
  | .ok _, .error _ => .isFalse (by simp)
  | .error _, .ok _ => .isFalse (by simp)

/-- Case-insensitive response-header lookup (models `httpx` `response.headers.get`;
callers pass lowercase names). -/
def getHeader (hs : List (String × String)) (name : String) : Option String :=
  (hs.find? (fun kv => lowerStr kv.1 == name)).map (fun kv => kv.2)

/-- `httpx` success range: `response.raise_for_status()` does not raise exactly for
2xx statuses. -/
def isSuccessStatus (s : Nat) : Bool :=
  decide (200 ≤ s) && decide (s < 300)

/-! Signing layer (`COSStorage._filter_headers`, `COSStorage._sign`). -/

/-- Header allow-list of `_filter_headers` (a Python `set`; order immaterial). -/
def validHeaders : List String :=
  ["cache-control", "content-disposition", "content-encoding", "content-type",
   "content-md5", "content-length", "expect", "expires", "host", "if-match",
   "if-modified-since", "if-none-match", "if-unmodified-since", "origin",
   "range", "transfer-encoding"]

/-- `_filter_headers`: keep a header when its lowercased name is in the allow-list
or starts with `x-cos-`; the original-cased name is kept. -/
def filterHeaders (headers : List (String × String)) : List (String × String) :=
  headers.filter (fun kv =>
    validHeaders.contains (lowerStr kv.1) || pyStartsWith (lowerStr kv.1) "x-cos-")

/-- One `key=value` term of the canonical strings in `_sign`:
`quote(k.lower(), safe='-_.~') = quote(str(v), safe='-_.~')`. -/
def encodeItem (kv : String × String) : String :=
  quotePy (lowerStr kv.1) "-_.~" ++ "=" ++ quotePy kv.2 "-_.~"

/-- `param_str` of `_sign`: encoded pairs over `sorted(params.items())`, `&`-joined. -/
def paramStr (params : List (String × String)) : String :=
  String.intercalate "&" ((sortPairs params).map encodeItem)

/-- `header_str` of `_sign`: encoded pairs over `sorted(sign_headers.items())`. -/
def headerStr (headers : List (String × String)) : String :=
  String.intercalate "&" ((sortPairs (filterHeaders headers)).map encodeItem)

/-- `http_string` of `_sign`. -/
def httpString (method path : String) (params headers : List (String × String)) : String :=
  lowerStr method ++ "\n" ++ path ++ "\n" ++ paramStr params ++ "\n" ++ headerStr headers ++ "\n"

/-- `sign_time` of `_sign`: `start_time = int(time.time()) - 60`,
`end_time = start_time + expire + 60`. -/
def signTimeStr (now expire : Int) : String :=
  toString (now - 60) ++ ";" ++ toString (now - 60 + expire + 60)

/-- `hashlib.sha1(s.encode("utf-8")).hexdigest()`. -/
def sha1HexOfStr (s : String) : String :=
  hexLower (sha1Bytes (strBytes s))

/-- `string_to_sign` of `_sign`. -/
def stringToSign (signTime httpStr : String) : String :=
  "sha1\n" ++ signTime ++ "\n" ++ sha1HexOfStr httpStr ++ "\n"

/-- `sign_key` of `_sign`: HMAC-SHA1 of the window string under the secret key, hex. -/
def signKeyHex (secretKey signTime : String) : String :=
  hexLower (hmacSha1 (strBytes secretKey) (strBytes signTime))

/-- `signature` of `_sign`: HMAC-SHA1 of `string_to_sign` under the hex sign key. -/
def signatureHex (secretKey signTime httpStr : String) : String :=
  hexLower (hmacSha1 (strBytes (signKeyHex secretKey signTime)) (strBytes (stringToSign signTime httpStr)))

/-- `q-header-list` right-hand side: sorted lowercased signed-header names,
`;`-joined. -/
def headerListStr (headers : List (String × String)) : String :=
  String.intercalate ";" (sortStrs ((filterHeaders headers).map (fun kv => lowerStr kv.1)))

/-- `q-url-param-list` right-hand side: sorted lowercased param names, `;`-joined. -/
def paramListStr (params : List (String × String)) : String :=
  String.intercalate ";" (sortStrs (params.map (fun kv => lowerStr kv.1)))

/-- The `auth` concatenation at the end of `_sign`. -/
def authValue (secretId signTime : String) (headers params : List (String × String)) (sig : String) : String :=
  "q-sign-algorithm=sha1&q-ak=" ++ secretId ++ "&q-sign-time=" ++ signTime ++ "&q-key-time=" ++ signTime ++ "&q-header-list=" ++ headerListStr headers ++ "&q-url-param-list=" ++ paramListStr params ++ "&q-signature=" ++ sig

/-- Credentials check of `_sign` (`if not secret_id or not secret_key`). -/
def missingCreds (cfg : StorageConfig) : Bool :=
  !(truthy cfg.access_key_id && truthy cfg.access_key_secret)

/-- `COSStorage._sign`: the Authorization value, or `StorageBackendError` when a
credential is absent. `now` is the injected `int(time.time())`. -/
def cosSign (cfg : StorageConfig) (method path : String) (params headers : List (String × String)) (expire now : Int) : Except StorageErr String :=
  if truthy cfg.access_key_id && truthy cfg.access_key_secret then
    let st := signTimeStr now expire
    .ok (authValue (cfg.access_key_id.getD "") st headers params
          (signatureHex (cfg.access_key_secret.getD "") st (httpString method path params headers)))
  else
    .error (.backend "缺少访问密钥")

/-- The Authorization value `_sign` emits on success (for stating theorems about
requests without re-matching on `cosSign`). -/
def signedAuth (cfg : StorageConfig) (method path : String) (params headers : List (String × String)) (expire now : Int) : String :=
  authValue (cfg.access_key_id.getD "") (signTimeStr now expire) headers params
    (signatureHex (cfg.access_key_secret.getD "") (signTimeStr now expire) (httpString method path params headers))

/-! Host/URL resolution and bucket resolution. -/

/-- `_get_bucket`: explicit argument, else configured default, else error. -/
def getBucket (cfg : StorageConfig) (bucket_name : Option String) : Except StorageErr String :=
  let bucket := pyOr bucket_name cfg.bucket_name
  if truthy bucket then .ok (bucket.getD "") else .error (.backend "桶名未指定")

/-- Scheme stripping in `_get_host` (`https://` checked before `http://`). -/
def stripScheme (e : String) : String :=
  if pyStartsWith e "https://" then e.drop 8
  else if pyStartsWith e "http://" then e.drop 7
  else e

/-- `_get_host`: explicit endpoint (scheme and trailing slashes stripped; returned
unchanged when it already contains the bucket) or the regional default pattern. -/
def getHost (cfg : StorageConfig) (bucket : String) : Except StorageErr String :=
  if truthy cfg.endpoint then
    let endpoint := rstripSlash (stripScheme (cfg.endpoint.getD ""))
    if pyInStr bucket endpoint then .ok endpoint
    else .ok (bucket ++ "." ++ endpoint)
  else if !truthy cfg.region then
    .error (.backend "Region 或 Endpoint 必须指定")
  else
    .ok (bucket ++ ".cos." ++ cfg.region.getD "" ++ ".myqcloud.com")

/-- Path prefixing used by every operation:
`"/" + object_name if not object_name.startswith("/") else object_name`. -/
def pathOf (object_name : String) : String :=
  if pyStartsWith object_name "/" then object_name else "/" ++ object_name

/-- `x-cos-security-token` header added when a session token is configured. -/
def tokenHeaders (cfg : StorageConfig) : List (String × String) :=
  if truthy cfg.session_token then [("x-cos-security-token", cfg.session_token.getD "")] else []

/-- `_build_url`: permanent object URL (`object_name` percent-encoded keeping `/`). -/
def buildUrl (cfg : StorageConfig) (bucket object_name : String) : Except StorageErr String :=
  match getHost cfg bucket with
  | .error e => .error e
  | .ok host => .ok ("https://" ++ host ++ "/" ++ quotePy object_name "/-_.~")

/-- `_get_presigned_url`: sign a request over the path with only the `host` header
and append the authorization as the query string. -/
def getPresignedUrl (cfg : StorageConfig) (bucket object_name method : String) (expires_in now : Int) : Except StorageErr String :=
  match getHost cfg bucket with
  | .error e => .error e
  | .ok host =>
    let path := pathOf object_name
    let encodedPath := quotePy path "/-_.~"
    match cosSign cfg method path [] [("host", host)] expires_in now with
    | .error e => .error e
    | .ok auth => .ok ("https://" ++ host ++ encodedPath ++ "?" ++ auth)

/-- Truthiness of the `expires_in: int | None` argument (`0` is falsy). -/
def truthyInt : Option Int → Bool
  | none => false
  | some n => !(n == 0)

/-- `get_file_url`: presigned URL when an expiry is requested, else permanent URL. -/
def get_file_url (cfg : StorageConfig) (object_name : String) (bucket_name : Option String) (expires_in : Option Int) (now : Int) : Except StorageErr String :=
  match getBucket cfg bucket_name with
  | .error e => .error e
  | .ok bucket =>
    if truthyInt expires_in then getPresignedUrl cfg bucket object_name "GET" (expires_in.getD 0) now
    else buildUrl cfg bucket object_name

/-! Operations (each returns its outcome and the ordered list of issued requests). -/

/-- `upload_file`: PUT with content-length/content-type/metadata/token headers,
signed over those headers. -/
def upload_file (cfg : StorageConfig) (oracle : HttpRequest → HttpResult) (file : StorageFile) (bucket_name : Option String) (now : Int) : Except StorageErr UploadResult × List HttpRequest :=
  match getBucket cfg (pyOr bucket_name file.bucket_name) with
  | .error e => (.error e, [])
  | .ok bucket =>
    let data := file.data.getD []
    match getHost cfg bucket with
    | .error e => (.error e, [])
    | .ok host =>
      let path := pathOf file.object_name
      let url := "https://" ++ host ++ quotePy path "/-_.~"
      let headers :=
        [("host", host), ("content-length", toString data.length)]
          ++ (if truthy file.content_type then [("content-type", file.content_type.getD "")] else [])
          ++ file.metadata.map (fun kv => ("x-cos-meta-" ++ kv.1, kv.2))
          ++ tokenHeaders cfg
      match cosSign cfg "PUT" path [] headers 10000 now with
      | .error e => (.error e, [])
      | .ok auth =>
        let req : HttpRequest := ⟨"PUT", url, headers ++ [("authorization", auth)], data⟩
        let res : Except StorageErr UploadResult :=
          match oracle req with
          | .err m => .error (.backend ("COS 请求失败: " ++ m))
          | .ok resp =>
            if isSuccessStatus resp.status then
              let etag := stripChar '"' ((getHeader resp.headers "etag").getD "")
              .ok ⟨"https://" ++ host ++ "/" ++ quotePy file.object_name "/-_.~", bucket,
                    file.object_name, if etag == "" then none else some etag⟩
            else
              .error (.backend ("COS 上传失败: " ++ toString resp.status ++ " " ++ resp.text))
        (res, [req])

/-- `delete_file`: DELETE; `200/204/404` are success, other statuses go through
`raise_for_status` (which raises exactly on non-2xx). -/
def delete_file (cfg : StorageConfig) (oracle : HttpRequest → HttpResult) (object_name : String) (bucket_name : Option String) (now : Int) : Except StorageErr Unit × List HttpRequest :=
  match getBucket cfg bucket_name with
  | .error e => (.error e, [])
  | .ok bucket =>
    match getHost cfg bucket with
    | .error e => (.error e, [])
    | .ok host =>
      let path := pathOf object_name
      let url := "https://" ++ host ++ quotePy path "/-_.~"
      let headers := [("host", host)] ++ tokenHeaders cfg
      match cosSign cfg "DELETE" path [] headers 10000 now with
      | .error e => (.error e, [])
      | .ok auth =>
        let req : HttpRequest := ⟨"DELETE", url, headers ++ [("authorization", auth)], []⟩
        let res : Except StorageErr Unit :=
          match oracle req with
          | .err m => .error (.backend ("COS 请求失败: " ++ m))
          | .ok resp =>
            if resp.status == 200 || resp.status == 204 || resp.status == 404 then .ok ()
            else if isSuccessStatus resp.status then .ok ()
            else .error (.backend ("COS 删除失败: " ++ toString resp.status ++ " " ++ resp.text))
        (res, [req])

/-- `download_file`: GET; 404 raises `StorageNotFoundError`, other non-2xx raise
`StorageBackendError`, success returns the raw body bytes. -/
def download_file (cfg : StorageConfig) (oracle : HttpRequest → HttpResult) (object_name : String) (bucket_name : Option String) (now : Int) : Except StorageErr (List Nat) × List HttpRequest :=
  match getBucket cfg bucket_name with
  | .error e => (.error e, [])
  | .ok bucket =>
    match getHost cfg bucket with
    | .error e => (.error e, [])
    | .ok host =>
      let path := pathOf object_name
      let url := "https://" ++ host ++ quotePy path "/-_.~"
      let headers := [("host", host)] ++ tokenHeaders cfg
      match cosSign cfg "GET" path [] headers 10000 now with
      | .error e => (.error e, [])
      | .ok auth =>
        let req : HttpRequest := ⟨"GET", url, headers ++ [("authorization", auth)], []⟩
        let res : Except StorageErr (List Nat) :=
          match oracle req with
          | .err m => .error (.backend ("COS 请求失败: " ++ m))
          | .ok resp =>
            if resp.status == 404 then .error (.notFound ("文件不存在: " ++ object_name))
            else if isSuccessStatus resp.status then .ok resp.body
            else .error (.backend ("COS 下载失败: " ++ toString resp.status ++ " " ++ resp.text))
        (res, [req])

/-- `file_exists`: HEAD; true exactly on status 200, transport errors collapse to
false (config/signing errors are still raised before the request). -/
def file_exists (cfg : StorageConfig) (oracle : HttpRequest → HttpResult) (object_name : String) (bucket_name : Option String) (now : Int) : Except StorageErr Bool × List HttpRequest :=
  match getBucket cfg bucket_name with
  | .error e => (.error e, [])
  | .ok bucket =>
    match getHost cfg bucket with
    | .error e => (.error e, [])
    | .ok host =>
      let path := pathOf object_name
      let url := "https://" ++ host ++ quotePy path "/-_.~"
      let headers := [("host", host)] ++ tokenHeaders cfg
      match cosSign cfg "HEAD" path [] headers 10000 now with
      | .error e => (.error e, [])
      | .ok auth =>
        let req : HttpRequest := ⟨"HEAD", url, headers ++ [("authorization", auth)], []⟩
        let res : Except StorageErr Bool :=
          match oracle req with
          | .err _ => .ok false
          | .ok resp => .ok (resp.status == 200)
        (res, [req])

/-- `_get_file_size`: HEAD returning the `content-length` value, with any `httpx`
failure, non-200 status, or falsy header collapsing to 0; a non-numeric header
raises `ValueError` (uncaught by the source's `except` clauses). -/
def getFileSize (cfg : StorageConfig) (oracle : HttpRequest → HttpResult) (bucket object_name : String) (now : Int) : Except StorageErr Int × List HttpRequest :=
  match getHost cfg bucket with
  | .error e => (.error e, [])
  | .ok host =>
    let path := pathOf object_name
    let url := "https://" ++ host ++ quotePy path "/-_.~"
    let headers := [("host", host)] ++ tokenHeaders cfg
    match cosSign cfg "HEAD" path [] headers 10000 now with
    | .error e => (.error e, [])
    | .ok auth =>
      let req : HttpRequest := ⟨"HEAD", url, headers ++ [("authorization", auth)], []⟩
      let res : Except StorageErr Int :=
        match oracle req with
        | .err _ => .ok 0
        | .ok resp =>
          if resp.status == 200 then
            match getHeader resp.headers "content-length" with
            | none => .ok 0
            | some s =>
              if s == "" then .ok 0
              else
                match pyInt s with
                | .ok n => .ok n
                | .error m => .error (.valueError m)
          else .ok 0
      (res, [req])

/-- Signed query params of the append POST. -/
def appendParams (position : Int) : List (String × String) :=
  [("append", ""), ("position", toString position)]

/-- Request headers of the append POST (before `authorization` is added). -/
def appendHeaders (cfg : StorageConfig) (host : String) (dataLen : Nat) : List (String × String) :=
  [("host", host), ("content-length", toString dataLen)] ++ tokenHeaders cfg

/-- Body of `append_file` after the position is resolved: the signed POST with
`append`/`position` query params and the next-position result. -/
def appendPost (cfg : StorageConfig) (oracle : HttpRequest → HttpResult) (bucket object_name : String) (data : List Nat) (position : Int) (now : Int) : Except StorageErr Int × List HttpRequest :=
  match getHost cfg bucket with
  | .error e => (.error e, [])
  | .ok host =>
    let path := pathOf object_name
    let params := appendParams position
    let url := "https://" ++ host ++ quotePy path "/-_.~" ++ "?append=&position=" ++ toString position
    let headers := appendHeaders cfg host data.length
    match cosSign cfg "POST" path params headers 10000 now with
    | .error e => (.error e, [])
    | .ok auth =>
      let req : HttpRequest := ⟨"POST", url, headers ++ [("authorization", auth)], data⟩
      let res : Except StorageErr Int :=
        match oracle req with
        | .err m => .error (.backend ("COS 请求失败: " ++ m))
        | .ok resp =>
          if isSuccessStatus resp.status then
            match getHeader resp.headers "x-cos-next-append-position" with
            | none => .ok (position + (data.length : Int))
            | some s =>
              if s == "" then .ok (position + (data.length : Int))
              else
                match pyInt s with
                | .ok n => .ok n
                | .error m => .error (.valueError m)
          else .error (.backend ("COS 追加失败: " ++ toString resp.status ++ " " ++ resp.text))
      (res, [req])

/-- `append_file`: when `position` is `None`, first resolve it via `_get_file_size`,
then run the POST. -/
def append_file (cfg : StorageConfig) (oracle : HttpRequest → HttpResult) (object_name : String) (data : List Nat) (bucket_name : Option String) (position : Option Int) (now : Int) : Except StorageErr Int × List HttpRequest :=
  match getBucket cfg bucket_name with
  | .error e => (.error e, [])
  | .ok bucket =>
    match position with
    | some p => appendPost cfg oracle bucket object_name data p now
    | none =>
      match getFileSize cfg oracle bucket object_name now with
      | (.error e, t) => (.error e, t)
      | (.ok sz, t) =>
        let r := appendPost cfg oracle bucket object_name data sz now
        (r.1, t ++ r.2)

/-! Definitions built from the SPEC'S WORDS, for comparison with the source-derived
definitions above (refinement direction of claims C1 and C4). -/

/-- Relation "lower-cased key of `a` at most that of `b`" (claim C1's header rule;
ties broken by value). -/
def lowerKeyLeB (a b : String × String) : Bool :=
  if lowerStr a.1 == lowerStr b.1 then strLeB a.2 b.2 else strLeB (lowerStr a.1) (lowerStr b.1)

/-- Propositional form of `lowerKeyLeB`. -/
def LowerKeyLe (a b : String × String) : Prop :=
  lowerKeyLeB a b = true

instance : DecidableRel LowerKeyLe := fun a b =>
  inferInstanceAs (Decidable (lowerKeyLeB a b = true))

/-- Canonical query string as the spec words it: encode each pair (key lower-cased),
then join the `key=value` terms sorted by encoded key. -/
def canonicalQuerySpec (params : List (String × String)) : String :=
  String.intercalate "&"
    ((List.insertionSort PairLe
        (params.map (fun kv => (quotePy (lowerStr kv.1) "-_.~", quotePy kv.2 "-_.~")))).map
      (fun kv => kv.1 ++ "=" ++ kv.2))

/-- Canonical header string as the spec words it: same encoding rule over the
filtered headers, sorted by lower-cased key. -/
def canonicalHeadersSpec (headers : List (String × String)) : String :=
  String.intercalate "&"
    ((List.insertionSort LowerKeyLe (filterHeaders headers)).map encodeItem)

/-- The header allow-list exactly as the spec/claim enumerates it. -/
def specAllowList : List String :=
  ["host", "content-type", "content-md5", "content-length", "cache-control",
   "content-disposition", "content-encoding", "expect", "expires", "if-match",
   "if-modified-since", "if-none-match", "if-unmodified-since", "origin",
   "range", "transfer-encoding"]

/-! Concrete fixtures for counterexamples and witnesses. -/

/-- Config with full credentials and a region (used as a standard valid fixture). -/
def cfgStd : StorageConfig :=
  ⟨some "AKID", some "SK", none, none, some "ap-guangzhou", some "bkt"⟩

/-- Config with no credentials but resolvable bucket and host. -/
def cfgNoCreds : StorageConfig :=
  ⟨none, some "SK", none, none, some "ap-guangzhou", some "bkt"⟩

/-- Config with endpoint `https://accel.example.com` (spec's first host example). -/
def cfgAccel : StorageConfig :=
  ⟨some "AKID", some "SK", none, some "https://accel.example.com", none, none⟩

/-- Config with endpoint `https://b1.accel.example.com` (bucket pre-qualified). -/
def cfgAccelB1 : StorageConfig :=
  ⟨some "AKID", some "SK", none, some "https://b1.accel.example.com", none, none⟩

/-- Config with no endpoint and region `ap-guangzhou` (spec's third host example). -/
def cfgRegion : StorageConfig :=
  ⟨some "AKID", some "SK", none, none, some "ap-guangzhou", none⟩

/-- Oracle whose transport always fails (an unreachable host). -/
def oracleDown : HttpRequest → HttpResult :=
  fun _ => .err "unreachable"

/-- A trivial upload fixture. -/
def fileStd : StorageFile :=
  ⟨"k.txt", some [104, 105], none, none, []⟩

/-- Response carrying the next-append-position header with an EMPTY value. -/
def respEmptyPos : HttpResponse :=
  ⟨200, [("x-cos-next-append-position", "")], [], ""⟩

/-! Shared lemmas. -/

/-- Totality of the codepoint-lexicographic order. -/
theorem charsLe_total : ∀ x y : List Char, charsLe x y = true ∨ charsLe y x = true
  | [], _ => Or.inl rfl
  | _ :: _, [] => Or.inr rfl
  | a :: as, b :: bs => by
    rcases Nat.lt_trichotomy a.toNat b.toNat with h | h | h
    · left; simp [charsLe, h]
    · rcases charsLe_total as bs with ih | ih
      · left; simp [charsLe, h, lt_self_iff_false, ih]
      · right; simp [charsLe, h.symm, lt_self_iff_false, ih]
    · right; simp [charsLe, h]

/-- Transitivity of the codepoint-lexicographic order. -/
theorem charsLe_trans : ∀ x y z : List Char,
    charsLe x y = true → charsLe y z = true → charsLe x z = true
  | [], _, _, _, _ => rfl
  | _ :: _, [], _, hxy, _ => by simp [charsLe] at hxy
  | _ :: _, _ :: _, [], _, hyz => by simp [charsLe] at hyz
  | a :: as, b :: bs, c :: cs, hxy, hyz => by
    simp only [charsLe] at hxy hyz ⊢
    by_cases h1 : a.toNat < b.toNat <;> by_cases h2 : b.toNat < c.toNat <;>
      simp only [h1, h2, if_true, if_false, if_pos, if_neg, not_false_iff] at hxy hyz ⊢
    · have : a.toNat < c.toNat := h1.trans h2
      simp [this]
    · by_cases h3 : c.toNat < b.toNat
      · simp [h3] at hyz
      · have : a.toNat < c.toNat := by omega
        simp [this]
    · by_cases h3 : b.toNat < a.toNat
      · simp [h3] at hxy
      · have : a.toNat < c.toNat := by omega
        simp [this]
    · by_cases h3 : b.toNat < a.toNat
      · simp [h3] at hxy
      · by_cases h4 : c.toNat < b.toNat
        · simp [h4] at hyz
        · have hac1 : ¬a.toNat < c.toNat := by omega
          have hac2 : ¬c.toNat < a.toNat := by omega
          simp only [h3, if_neg, not_false_iff] at hxy
          simp only [h4, if_neg, not_false_iff] at hyz
          simp only [hac1, hac2, if_neg, not_false_iff]
          exact charsLe_trans as bs cs hxy hyz

/-- Antisymmetry of the codepoint-lexicographic order. -/
theorem charsLe_antisymm : ∀ x y : List Char,
    charsLe x y = true → charsLe y x = true → x = y
  | [], [], _, _ => rfl
  | [], _ :: _, _, hyx => by simp [charsLe] at hyx
  | _ :: _, [], hxy, _ => by simp [charsLe] at hxy
  | a :: as, b :: bs, hxy, hyx => by
    by_cases h1 : a.toNat < b.toNat
    · have h1' : ¬b.toNat < a.toNat := by omega
      simp [charsLe, h1, h1'] at hyx
    · by_cases h2 : b.toNat < a.toNat
      · simp [charsLe, h1, h2] at hxy
      · have hab : a = b := by
          have h3 : a.toNat = b.toNat := by omega
          exact Char.ext (UInt32.ext h3)
        subst hab
        have htl := charsLe_antisymm as bs
          (by simpa [charsLe, lt_self_iff_false] using hxy)
          (by simpa [charsLe, lt_self_iff_false] using hyx)
        rw [htl]

/-- Totality of the Python tuple order. -/
theorem pairLe_total (a b : String × String) : PairLe a b ∨ PairLe b a := by
  unfold PairLe pairLeB strLeB
  by_cases h : a.1 = b.1
  · simp only [h, beq_self_eq_true, if_true, if_pos]
    exact charsLe_total a.2.data b.2.data
  · have h1 : (a.1 == b.1) = false := by simp [h]
    have h2 : (b.1 == a.1) = false := by simp [Ne.symm h]
    simp only [h1, h2, if_false, Bool.false_eq_true, if_neg, not_false_iff]
    exact charsLe_total a.1.data b.1.data

/-- Transitivity of the Python tuple order. -/
theorem pairLe_trans (a b c : String × String) (hab : PairLe a b) (hbc : PairLe b c) :
    PairLe a c := by
  unfold PairLe pairLeB strLeB at *
  by_cases h1 : a.1 = b.1 <;> by_cases h2 : b.1 = c.1
  · have h3 : a.1 = c.1 := h1.trans h2
    simp only [h1, h2, beq_self_eq_true, if_true, if_pos] at hab hbc
    simp only [h3, beq_self_eq_true, if_true, if_pos]
    exact charsLe_trans _ _ _ hab hbc
  · have h3 : a.1 ≠ c.1 := fun he => h2 (h1 ▸ he)
    simp only [h1, beq_self_eq_true, if_true, if_pos] at hab
    simp only [show (b.1 == c.1) = false by simp [h2], if_false, Bool.false_eq_true,
      if_neg, not_false_iff] at hbc
    simp only [show (a.1 == c.1) = false by simp [h3], if_false, Bool.false_eq_true,
      if_neg, not_false_iff]
    rw [h1]
    exact hbc
  · have h3 : a.1 ≠ c.1 := fun he => h1 (he.trans h2.symm)
    simp only [show (a.1 == b.1) = false by simp [h1], if_false, Bool.false_eq_true,
      if_neg, not_false_iff] at hab
    simp only [show (a.1 == c.1) = false by simp [h3], if_false, Bool.false_eq_true,
      if_neg, not_false_iff]
    rw [h2] at hab
    exact hab
  · by_cases h3 : a.1 = c.1
    · exfalso
      simp only [show (a.1 == b.1) = false by simp [h1], if_false, Bool.false_eq_true,
        if_neg, not_false_iff] at hab
      simp only [show (b.1 == c.1) = false by simp [h2], if_false, Bool.false_eq_true,
        if_neg, not_false_iff] at hbc
      rw [← h3] at hbc
      have := charsLe_antisymm _ _ hab hbc
      exact h1 (String.toList_inj.mp this)
    · simp only [show (a.1 == b.1) = false by simp [h1], if_false, Bool.false_eq_true,
        if_neg, not_false_iff] at hab
      simp only [show (b.1 == c.1) = false by simp [h2], if_false, Bool.false_eq_true,
        if_neg, not_false_iff] at hbc
      simp only [show (a.1 == c.1) = false by simp [h3], if_false, Bool.false_eq_true,
        if_neg, not_false_iff]
      exact charsLe_trans _ _ _ hab hbc

/-- `_sign` succeeds and returns `signedAuth` when both credentials are truthy. -/
theorem cosSign_eq_ok (cfg : StorageConfig) (hc : missingCreds cfg = false)
    (method path : String) (params headers : List (String × String)) (expire now : Int) :
    cosSign cfg method path params headers expire now =
      .ok (signedAuth cfg method path params headers expire now) := by
  unfold missingCreds at hc
  rw [Bool.not_eq_false'] at hc
  simp [cosSign, signedAuth, hc]

/-- `_sign` raises `StorageBackendError` when a credential is absent. -/
theorem cosSign_eq_err (cfg : StorageConfig) (hc : missingCreds cfg = true)
    (method path : String) (params headers : List (String × String)) (expire now : Int) :
    cosSign cfg method path params headers expire now = .error (.backend "缺少访问密钥") := by
  unfold missingCreds at hc
  rw [Bool.not_eq_eq_eq_not, Bool.not_true] at hc
  simp [cosSign, hc]

/-- Truthiness of `a or b` is the disjunction of truthiness. -/
theorem truthy_pyOr (a b : Option String) : truthy (pyOr a b) = (truthy a || truthy b) := by
  unfold pyOr
  by_cases h : truthy a = true <;> simp [h]

/-- `a or None` then `or c` collapses to `a or c`. -/
theorem pyOr_none_assoc (a c : Option String) : pyOr (pyOr a none) c = pyOr a c := by
  cases h : truthy a
  · simp only [pyOr]
    rw [h]
    simp [truthy]
  · simp only [pyOr]
    rw [h]
    simp [h]

/-- `_get_bucket` raises when neither the argument nor the config names a bucket. -/
theorem getBucket_eq_err (cfg : StorageConfig) (bn : Option String)
    (h : truthy (pyOr bn cfg.bucket_name) = false) :
    getBucket cfg bn = .error (.backend "桶名未指定") := by
  simp [getBucket, h]

/-- The only error `_get_host` can raise. -/
theorem getHost_err_msg (cfg : StorageConfig) (bucket : String) (e : StorageErr)
    (h : getHost cfg bucket = .error e) : e = .backend "Region 或 Endpoint 必须指定" := by
  unfold getHost at h
  split_ifs at h <;>
    first
      | exact Except.noConfusion h
      | exact ((Except.error.injEq _ _).mp h).symm
      | (simp only [] at h; split_ifs at h <;> exact Except.noConfusion h)

/-! Claim theorems. -/

/-- C1 (counterexample): the claim says the `key=value` pairs of the canonical
query string are sorted by encoded key and the canonical header string is sorted
by lower-cased key. The code sorts `dict.items()` by the ORIGINAL, case-sensitive
key before encoding: on params `{"B": "1", "a": "2"}` the code emits `b=1&a=2`
while the claimed rule emits `a=2&b=1`; on headers `{"Host": "h",
"content-type": "text"}` the code emits `host=h&content-type=text` while the
claimed rule emits `content-type=text&host=h`. -/
theorem c1_sort_counterexample :
    (paramStr [("B", "1"), ("a", "2")] = "b=1&a=2" ∧
      canonicalQuerySpec [("B", "1"), ("a", "2")] = "a=2&b=1") ∧
    (headerStr [("Host", "h"), ("content-type", "text")] = "host=h&content-type=text" ∧
      canonicalHeadersSpec [("Host", "h"), ("content-type", "text")] = "content-type=text&host=h") := by
  exact ⟨⟨by decide, by decide⟩, by decide, by decide⟩

/-- C1 (amended): the canonical query string is the `&`-join of `key=value` pairs
with the key lower-cased and both sides URL-encoded leaving `-_.~` unescaped,
the pairs sorted by the ORIGINAL (case-sensitive, pre-encoding) key with ties
broken by value; the canonical header string follows the same rule over the
filter-retained headers, again sorted by original header name; and the canonical
request string is the lower-cased method, the path, the canonical query string
and the canonical header string, each terminated by a newline. -/
theorem c1_canonical_strings (method path : String) (params headers : List (String × String)) :
    ∃ ps hs : List (String × String),
      List.Perm ps params ∧ List.Sorted PairLe ps ∧
      paramStr params = String.intercalate "&" (ps.map encodeItem) ∧
      List.Perm hs (filterHeaders headers) ∧ List.Sorted PairLe hs ∧
      headerStr headers = String.intercalate "&" (hs.map encodeItem) ∧
      httpString method path params headers =
        lowerStr method ++ "\n" ++ path ++ "\n" ++ paramStr params ++ "\n" ++ headerStr headers ++ "\n" := by
  haveI : IsTotal (String × String) PairLe := ⟨pairLe_total⟩
  haveI : IsTrans (String × String) PairLe := ⟨pairLe_trans⟩
  exact ⟨sortPairs params, sortPairs (filterHeaders headers),
    List.perm_insertionSort PairLe params, List.sorted_insertionSort PairLe params,
    rfl,
    List.perm_insertionSort PairLe (filterHeaders headers),
    List.sorted_insertionSort PairLe (filterHeaders headers),
    rfl, rfl⟩

/-- C2: a successful `_sign` call returns exactly the `&`-joined fields
`q-sign-algorithm=sha1`, `q-ak`, `q-sign-time`, `q-key-time` (both the window
`"{now-60};{now-60+expire+60}"`), `q-header-list` (sorted lower-cased signed
header names, `;`-joined), `q-url-param-list` (likewise for params), and
`q-signature`; with empty params and headers the two list fields are still
present with empty right-hand sides. -/
theorem c2_authorization_format (cfg : StorageConfig) (method path : String)
    (params headers : List (String × String)) (expire now : Int)
    (hid : truthy cfg.access_key_id = true) (hsec : truthy cfg.access_key_secret = true) :
    cosSign cfg method path params headers expire now =
      .ok ("q-sign-algorithm=sha1&q-ak=" ++ cfg.access_key_id.getD "" ++
        "&q-sign-time=" ++ (toString (now - 60) ++ ";" ++ toString (now - 60 + expire + 60)) ++
        "&q-key-time=" ++ (toString (now - 60) ++ ";" ++ toString (now - 60 + expire + 60)) ++
        "&q-header-list=" ++ String.intercalate ";" (sortStrs ((filterHeaders headers).map (fun kv => lowerStr kv.1))) ++
        "&q-url-param-list=" ++ String.intercalate ";" (sortStrs (params.map (fun kv => lowerStr kv.1))) ++
        "&q-signature=" ++ signatureHex (cfg.access_key_secret.getD "") (signTimeStr now expire) (httpString method path params headers)) ∧
    cosSign cfg method path [] [] expire now =
      .ok ("q-sign-algorithm=sha1&q-ak=" ++ cfg.access_key_id.getD "" ++
        "&q-sign-time=" ++ signTimeStr now expire ++
        "&q-key-time=" ++ signTimeStr now expire ++
        "&q-header-list=" ++ "" ++
        "&q-url-param-list=" ++ "" ++
        "&q-signature=" ++ signatureHex (cfg.access_key_secret.getD "") (signTimeStr now expire) (httpString method path [] [])) := by
  constructor
  · rw [cosSign_eq_ok cfg (by simp [missingCreds, hid, hsec]) method path params headers expire now]
    unfold signedAuth authValue headerListStr paramListStr signTimeStr
    simp [String.append_assoc]
  · rw [cosSign_eq_ok cfg (by simp [missingCreds, hid, hsec]) method path [] [] expire now]
    unfold signedAuth authValue headerListStr paramListStr
    simp [filterHeaders, sortStrs, List.insertionSort, String.intercalate, String.append_assoc]

/-- C2 (witness): concrete instantiation with `cfgStd`. -/
theorem c2_authorization_format_witness :
    truthy cfgStd.access_key_id = true ∧ truthy cfgStd.access_key_secret = true ∧
    cosSign cfgStd "GET" "/k" [] [] 10000 1000 =
      .ok ("q-sign-algorithm=sha1&q-ak=" ++ cfgStd.access_key_id.getD "" ++
        "&q-sign-time=" ++ signTimeStr 1000 10000 ++
        "&q-key-time=" ++ signTimeStr 1000 10000 ++
        "&q-header-list=" ++ "" ++
        "&q-url-param-list=" ++ "" ++
        "&q-signature=" ++ signatureHex (cfgStd.access_key_secret.getD "") (signTimeStr 1000 10000) (httpString "GET" "/k" [] [])) :=
  ⟨rfl, rfl, (c2_authorization_format cfgStd "GET" "/k" [] [] 10000 1000 rfl rfl).2⟩

/-- C3: host resolution — a configured endpoint is stripped of its scheme and
trailing slashes, returned unchanged when it contains the bucket as a substring
and prefixed with `"{bucket}."` otherwise; without an endpoint a configured
region yields `"{bucket}.cos.{region}.myqcloud.com"`; with neither, a
`StorageBackendError` is raised; including the spec's three concrete examples. -/
theorem c3_host_resolution (cfg : StorageConfig) (bucket : String) :
    (∀ e : String, cfg.endpoint = some e → e ≠ "" →
      (pyInStr bucket (rstripSlash (stripScheme e)) = true →
        getHost cfg bucket = .ok (rstripSlash (stripScheme e))) ∧
      (pyInStr bucket (rstripSlash (stripScheme e)) = false →
        getHost cfg bucket = .ok (bucket ++ "." ++ rstripSlash (stripScheme e)))) ∧
    (truthy cfg.endpoint = false → ∀ r : String, cfg.region = some r → r ≠ "" →
      getHost cfg bucket = .ok (bucket ++ ".cos." ++ r ++ ".myqcloud.com")) ∧
    (truthy cfg.endpoint = false → truthy cfg.region = false →
      getHost cfg bucket = .error (.backend "Region 或 Endpoint 必须指定")) ∧
    getHost cfgAccel "b1" = .ok "b1.accel.example.com" ∧
    getHost cfgAccelB1 "b1" = .ok "b1.accel.example.com" ∧
    getHost cfgRegion "b1" = .ok "b1.cos.ap-guangzhou.myqcloud.com" := by
  refine ⟨?_, ?_, ?_, by decide, by decide, by decide⟩
  · intro e he hne
    have hte : (e == "") = false := by simp [hne]
    constructor <;> intro hin <;> simp [getHost, he, truthy, hte, hin]
  · intro hend r hr hrne
    have htr : (r == "") = false := by simp [hrne]
    simp only [getHost, hend, hr]
    simp [truthy, htr]
  · intro hend hreg
    simp [getHost, hend, hreg]

/-- C3 (witness): the first example discharged through the endpoint branch of the
theorem. -/
theorem c3_host_resolution_witness :
    cfgAccel.endpoint = some "https://accel.example.com" ∧
    pyInStr "b1" (rstripSlash (stripScheme "https://accel.example.com")) = false ∧
    getHost cfgAccel "b1" = .ok ("b1" ++ "." ++ rstripSlash (stripScheme "https://accel.example.com")) :=
  ⟨rfl, by decide,
    ((c3_host_resolution cfgAccel "b1").1 "https://accel.example.com" rfl (by decide)).2 (by decide)⟩

/-- C4: the header filter retains exactly the headers whose lower-cased name is in
the claim's fixed allow-list or starts with `x-cos-`; in particular
`x-custom-foo` is dropped while `x-cos-meta-foo` and `content-type` are kept. -/
theorem c4_header_filter :
    (∀ (headers : List (String × String)) (kv : String × String),
      kv ∈ filterHeaders headers ↔
        kv ∈ headers ∧ (lowerStr kv.1 ∈ specAllowList ∨ pyStartsWith (lowerStr kv.1) "x-cos-" = true)) ∧
    filterHeaders [("x-custom-foo", "a"), ("x-cos-meta-foo", "b"), ("content-type", "c")] =
      [("x-cos-meta-foo", "b"), ("content-type", "c")] := by
  constructor
  · intro headers kv
    rw [filterHeaders, List.mem_filter]
    constructor
    · rintro ⟨hm, hp⟩
      refine ⟨hm, ?_⟩
      rcases Bool.or_eq_true_iff.mp hp with h | h
      · left
        have : lowerStr kv.1 ∈ validHeaders := by
          simpa [List.contains_iff_exists_mem_beq] using h
        revert this
        simp [validHeaders, specAllowList]
        tauto
      · right; exact h
    · rintro ⟨hm, hp⟩
      refine ⟨hm, ?_⟩
      rcases hp with h | h
      · apply Bool.or_eq_true_iff.mpr
        left
        have : lowerStr kv.1 ∈ validHeaders := by
          revert h
          simp [validHeaders, specAllowList]
          tauto
        simpa [List.contains_iff_exists_mem_beq] using this
      · exact Bool.or_eq_true_iff.mpr (Or.inr h)
  · decide

/-- C5 (counterexample): the claim says a missing access key fails with an error
kind DISTINCT from the backend error kind. The code raises
`StorageBackendError("缺少访问密钥")` — the very same kind used for HTTP/transport
failures — so the kinds are not distinct (the pre-network part does hold: no
request is issued). -/
theorem c5_kind_counterexample :
    upload_file cfgNoCreds oracleDown fileStd none 1000 =
      (.error (.backend "缺少访问密钥"), []) := by
  rfl

/-- C5 (amended): for every operation, a missing access-key id or secret, or an
unresolvable bucket, fails the call before any network I/O (the issued-request
trace is empty) with a `StorageBackendError` — the same error kind the code uses
for backend/network failures, not a distinct configuration kind. -/
theorem c5_config_errors (cfg : StorageConfig) (oracle : HttpRequest → HttpResult)
    (file : StorageFile) (name : String) (data : List Nat) (bn : Option String)
    (p : Option Int) (ein now : Int)
    (hfb : file.bucket_name = none)
    (hein : ein ≠ 0)
    (h : missingCreds cfg = true ∨ (truthy bn = false ∧ truthy cfg.bucket_name = false)) :
    (∃ m, upload_file cfg oracle file bn now = (.error (.backend m), [])) ∧
    (∃ m, delete_file cfg oracle name bn now = (.error (.backend m), [])) ∧
    (∃ m, download_file cfg oracle name bn now = (.error (.backend m), [])) ∧
    (∃ m, file_exists cfg oracle name bn now = (.error (.backend m), [])) ∧
    (∃ m, append_file cfg oracle name data bn p now = (.error (.backend m), [])) ∧
    (∃ m, get_file_url cfg name bn (some ein) now = .error (.backend m)) := by
  have hbu : pyOr (pyOr bn file.bucket_name) cfg.bucket_name = pyOr bn cfg.bucket_name := by
    rw [hfb, pyOr_none_assoc]
  have heinb : truthyInt (some ein) = true := by simp [truthyInt, hein]
  have main : truthy (pyOr bn cfg.bucket_name) = false ∨ missingCreds cfg = true := by
    rcases h with h | ⟨h1, h2⟩
    · exact Or.inr h
    · exact Or.inl (by rw [truthy_pyOr, h1, h2]; rfl)
  by_cases hb : truthy (pyOr bn cfg.bucket_name) = true
  · have hcred : missingCreds cfg = true := by
      rcases main with hmb | hmc
      · rw [hb] at hmb; cases hmb
      · exact hmc
    rcases hgh : getHost cfg ((pyOr bn cfg.bucket_name).getD "") with e | host
    · have he := getHost_err_msg _ _ _ hgh
      subst he
      refine ⟨⟨"Region 或 Endpoint 必须指定", ?_⟩, ⟨"Region 或 Endpoint 必须指定", ?_⟩,
        ⟨"Region 或 Endpoint 必须指定", ?_⟩, ⟨"Region 或 Endpoint 必须指定", ?_⟩, ?_,
        ⟨"Region 或 Endpoint 必须指定", ?_⟩⟩
      · simp [upload_file, getBucket, hbu, hb, hgh]
      · simp [delete_file, getBucket, hb, hgh]
      · simp [download_file, getBucket, hb, hgh]
      · simp [file_exists, getBucket, hb, hgh]
      · cases p with
        | some pv =>
          exact ⟨"Region 或 Endpoint 必须指定", by simp [append_file, appendPost, getBucket, hb, hgh]⟩
        | none =>
          exact ⟨"Region 或 Endpoint 必须指定", by simp [append_file, getFileSize, getBucket, hb, hgh]⟩
      · simp [get_file_url, getBucket, hb, heinb, getPresignedUrl, hgh]
    · refine ⟨⟨"缺少访问密钥", ?_⟩, ⟨"缺少访问密钥", ?_⟩, ⟨"缺少访问密钥", ?_⟩,
        ⟨"缺少访问密钥", ?_⟩, ?_, ⟨"缺少访问密钥", ?_⟩⟩
      · simp [upload_file, getBucket, hbu, hb, hgh, cosSign_eq_err cfg hcred]
      · simp [delete_file, getBucket, hb, hgh, cosSign_eq_err cfg hcred]
      · simp [download_file, getBucket, hb, hgh, cosSign_eq_err cfg hcred]
      · simp [file_exists, getBucket, hb, hgh, cosSign_eq_err cfg hcred]
      · cases p with
        | some pv =>
          exact ⟨"缺少访问密钥", by simp [append_file, appendPost, getBucket, hb, hgh, cosSign_eq_err cfg hcred]⟩
        | none =>
          exact ⟨"缺少访问密钥", by simp [append_file, getFileSize, getBucket, hb, hgh, cosSign_eq_err cfg hcred]⟩
      · simp [get_file_url, getBucket, hb, heinb, getPresignedUrl, hgh, cosSign_eq_err cfg hcred]
  · have hbf : truthy (pyOr bn cfg.bucket_name) = false := by
      cases hx : truthy (pyOr bn cfg.bucket_name)
      · rfl
      · exact absurd hx hb
    refine ⟨⟨"桶名未指定", ?_⟩, ⟨"桶名未指定", ?_⟩, ⟨"桶名未指定", ?_⟩,
      ⟨"桶名未指定", ?_⟩, ?_, ⟨"桶名未指定", ?_⟩⟩
    · simp [upload_file, getBucket, hbu, hbf]
    · simp [delete_file, getBucket, hbf]
    · simp [download_file, getBucket, hbf]
    · simp [file_exists, getBucket, hbf]
    · cases p with
      | some pv => exact ⟨"桶名未指定", by simp [append_file, getBucket, hbf]⟩
      | none => exact ⟨"桶名未指定", by simp [append_file, getBucket, hbf]⟩
    · simp [get_file_url, getBucket, hbf]

/-- C5 (witness): the amended theorem applied to a credential-less config. -/
theorem c5_config_errors_witness :
    fileStd.bucket_name = none ∧ (60 : Int) ≠ 0 ∧ missingCreds cfgNoCreds = true ∧
    (∃ m, delete_file cfgNoCreds oracleDown "k" none 1000 = (.error (.backend m), [])) :=
  ⟨rfl, by decide, rfl,
    (c5_config_errors cfgNoCreds oracleDown fileStd "k" [] none none 60 1000 rfl (by decide)
      (Or.inl rfl)).2.1⟩

/-- C6 (counterexample): the claim says the operation "returns the integer value
of the server's x-cos-next-append-position response header when present". With
the header present but empty (`""` has no integer value — `int("")` raises),
the code's truthiness test skips it and returns `position + len(data)` = 8. -/
theorem c6_empty_header_counterexample :
    getHeader respEmptyPos.headers "x-cos-next-append-position" = some "" ∧
    pyInt "" = .error "invalid literal for int with base 10: " ∧
    (append_file cfgStd (fun _ => .ok respEmptyPos) "k" [1, 2, 3] none (some 5) 1000).1 = .ok 8 :=
  ⟨rfl, rfl, rfl⟩

/-- C6 (amended): with `position = None`, `append_file` first resolves the
position through `_get_file_size` (a HEAD whose transport failure, non-200
status, or missing content-length header all collapse to size 0) and then runs
the POST at that position; the POST carries the signed query parameters
`append=` and `position={p}` (they appear in the URL and in the signed
authorization); and the result is the decimal value of the server's
`x-cos-next-append-position` header when that header is present and non-empty
(a non-numeric value raising `ValueError`), and `position + len(data)` when it
is absent or empty. -/
theorem c6_append_position (cfg : StorageConfig) (oracle : HttpRequest → HttpResult)
    (name : String) (data : List Nat) (bn : Option String) (now : Int) (bucket host : String)
    (hb : getBucket cfg bn = .ok bucket)
    (hh : getHost cfg bucket = .ok host)
    (hc : missingCreds cfg = false) :
    (∀ e t, getFileSize cfg oracle bucket name now = (.error e, t) →
      append_file cfg oracle name data bn none now = (.error e, t)) ∧
    (∀ sz t, getFileSize cfg oracle bucket name now = (.ok sz, t) →
      append_file cfg oracle name data bn none now =
        ((appendPost cfg oracle bucket name data sz now).1,
          t ++ (appendPost cfg oracle bucket name data sz now).2)) ∧
    (∀ m, (getFileSize cfg (fun _ => .err m) bucket name now).1 = .ok 0) ∧
    (∀ resp : HttpResponse, resp.status ≠ 200 →
      (getFileSize cfg (fun _ => .ok resp) bucket name now).1 = .ok 0) ∧
    (∀ resp : HttpResponse, getHeader resp.headers "content-length" = none →
      (getFileSize cfg (fun _ => .ok resp) bucket name now).1 = .ok 0) ∧
    (∀ p : Int, (appendPost cfg oracle bucket name data p now).2 =
      [⟨"POST",
        "https://" ++ host ++ quotePy (pathOf name) "/-_.~" ++ "?append=&position=" ++ toString p,
        appendHeaders cfg host data.length ++
          [("authorization",
            signedAuth cfg "POST" (pathOf name) (appendParams p) (appendHeaders cfg host data.length) 10000 now)],
        data⟩]) ∧
    (∀ (p : Int) (resp : HttpResponse) (s : String) (n : Int),
      isSuccessStatus resp.status = true →
      getHeader resp.headers "x-cos-next-append-position" = some s → s ≠ "" →
      pyInt s = .ok n →
      (appendPost cfg (fun _ => .ok resp) bucket name data p now).1 = .ok n) ∧
    (∀ (p : Int) (resp : HttpResponse) (s m : String),
      isSuccessStatus resp.status = true →
      getHeader resp.headers "x-cos-next-append-position" = some s → s ≠ "" →
      pyInt s = .error m →
      (appendPost cfg (fun _ => .ok resp) bucket name data p now).1 = .error (.valueError m)) ∧
    (∀ (p : Int) (resp : HttpResponse),
      isSuccessStatus resp.status = true →
      (getHeader resp.headers "x-cos-next-append-position" = none ∨
        getHeader resp.headers "x-cos-next-append-position" = some "") →
      (appendPost cfg (fun _ => .ok resp) bucket name data p now).1 =
        .ok (p + (data.length : Int))) := by
  refine ⟨?_, ?_, ?_, ?_, ?_, ?_, ?_, ?_, ?_⟩
  · intro e t hgf
    simp [append_file, hb, hgf]
  · intro sz t hgf
    simp [append_file, hb, hgf]
  · intro m
    simp [getFileSize, hh, cosSign_eq_ok cfg hc]
  · intro resp hst
    have : (resp.status == 200) = false := by simp [hst]
    simp [getFileSize, hh, cosSign_eq_ok cfg hc, this]
  · intro resp hcl
    by_cases hst : resp.status = 200
    · simp [getFileSize, hh, cosSign_eq_ok cfg hc, hst, hcl]
    · have : (resp.status == 200) = false := by simp [hst]
      simp [getFileSize, hh, cosSign_eq_ok cfg hc, this]
  · intro p
    simp [appendPost, hh, cosSign_eq_ok cfg hc]
  · intro p resp s n hsucc hhdr hne hint
    have hsne : (s == "") = false := by simp [hne]
    simp [appendPost, hh, cosSign_eq_ok cfg hc, hsucc, hhdr, hsne, hint]
  · intro p resp s m hsucc hhdr hne hint
    have hsne : (s == "") = false := by simp [hne]
    simp [appendPost, hh, cosSign_eq_ok cfg hc, hsucc, hhdr, hsne, hint]
  · intro p resp hsucc hhdr
    rcases hhdr with hhdr | hhdr <;> simp [appendPost, hh, cosSign_eq_ok cfg hc, hsucc, hhdr]

/-- C6 (witness): concrete fallback case — success response without the
next-position header returns `position + len(data)`. -/
theorem c6_append_position_witness :
    getBucket cfgStd (some "b") = .ok "b" ∧
    getHost cfgStd "b" = .ok "b.cos.ap-guangzhou.myqcloud.com" ∧
    missingCreds cfgStd = false ∧
    (appendPost cfgStd (fun _ => .ok ⟨200, [], [], ""⟩) "b" "k" [1, 2, 3] 5 1000).1 =
      .ok (5 + (([1, 2, 3] : List Nat).length : Int)) :=
  ⟨rfl, rfl, rfl,
    (c6_append_position cfgStd (fun _ => .ok ⟨200, [], [], ""⟩) "k" [1, 2, 3] (some "b") 1000
      "b" "b.cos.ap-guangzhou.myqcloud.com" rfl rfl rfl).2.2.2.2.2.2.2.2
      5 ⟨200, [], [], ""⟩ rfl (Or.inl rfl)⟩

/-- C7: `download_file` maps HTTP 404 to `StorageNotFoundError` — a kind distinct
from `StorageBackendError` — every other non-2xx status and every transport
failure to `StorageBackendError`, and a 2xx response to its raw body bytes. -/
theorem c7_download_errors (cfg : StorageConfig) (name : String) (bn : Option String)
    (now : Int) (bucket host : String) (resp : HttpResponse) (m : String)
    (hb : getBucket cfg bn = .ok bucket)
    (hh : getHost cfg bucket = .ok host)
    (hc : missingCreds cfg = false) :
    (resp.status = 404 →
      (download_file cfg (fun _ => .ok resp) name bn now).1 =
        .error (.notFound ("文件不存在: " ++ name))) ∧
    (isSuccessStatus resp.status = true →
      (download_file cfg (fun _ => .ok resp) name bn now).1 = .ok resp.body) ∧
    (resp.status ≠ 404 → isSuccessStatus resp.status = false →
      (download_file cfg (fun _ => .ok resp) name bn now).1 =
        .error (.backend ("COS 下载失败: " ++ toString resp.status ++ " " ++ resp.text))) ∧
    ((download_file cfg (fun _ => .err m) name bn now).1 =
      .error (.backend ("COS 请求失败: " ++ m))) ∧
    (StorageErr.notFound ("文件不存在: " ++ name) ≠
      StorageErr.backend ("COS 下载失败: " ++ toString resp.status ++ " " ++ resp.text)) := by
  refine ⟨?_, ?_, ?_, ?_, by simp⟩
  · intro h404
    simp [download_file, hb, hh, cosSign_eq_ok cfg hc, h404]
  · intro hsucc
    have h404 : (resp.status == 404) = false := by
      rcases eq_or_ne resp.status 404 with he | hne
      · rw [he] at hsucc
        exact absurd hsucc (by decide)
      · simp [hne]
    simp [download_file, hb, hh, cosSign_eq_ok cfg hc, h404, hsucc]
  · intro hne hfail
    have h404 : (resp.status == 404) = false := by simp [hne]
    simp [download_file, hb, hh, cosSign_eq_ok cfg hc, h404, hfail]
  · simp [download_file, hb, hh, cosSign_eq_ok cfg hc]

/-- C7 (witness): a 404 response maps to the not-found error kind. -/
theorem c7_download_errors_witness :
    getBucket cfgStd (some "b") = .ok "b" ∧ missingCreds cfgStd = false ∧
    (download_file cfgStd (fun _ => .ok ⟨404, [], [], ""⟩) "k" (some "b") 1000).1 =
      .error (.notFound ("文件不存在: " ++ "k")) :=
  ⟨rfl, rfl,
    (c7_download_errors cfgStd "k" (some "b") 1000 "b" "b.cos.ap-guangzhou.myqcloud.com"
      ⟨404, [], [], ""⟩ "m" rfl rfl rfl).1 rfl⟩

/-- C8 (counterexample): the claim says any status other than 200/204/404 raises a
backend error, but the code only calls `raise_for_status` (which does not raise
on 2xx): a 201 response makes `delete_file` return success. -/
theorem c8_status201_counterexample :
    (delete_file cfgStd (fun _ => .ok ⟨201, [], [], ""⟩) "k" (some "b") 1000).1 = .ok () := by
  rfl

/-- C8 (amended): `delete_file` treats 200, 204, 404 — and, through
`raise_for_status`, every other 2xx status — as success; every non-2xx status
outside {200, 204, 404} raises a backend error, as does a transport failure. -/
theorem c8_delete_statuses (cfg : StorageConfig) (name : String) (bn : Option String)
    (now : Int) (bucket host : String)
    (hb : getBucket cfg bn = .ok bucket)
    (hh : getHost cfg bucket = .ok host)
    (hc : missingCreds cfg = false) :
    (∀ resp : HttpResponse,
      (resp.status = 200 ∨ resp.status = 204 ∨ resp.status = 404 ∨
        isSuccessStatus resp.status = true) →
      (delete_file cfg (fun _ => .ok resp) name bn now).1 = .ok ()) ∧
    (∀ resp : HttpResponse,
      resp.status ≠ 200 → resp.status ≠ 204 → resp.status ≠ 404 →
      isSuccessStatus resp.status = false →
      (delete_file cfg (fun _ => .ok resp) name bn now).1 =
        .error (.backend ("COS 删除失败: " ++ toString resp.status ++ " " ++ resp.text))) ∧
    (∀ m, (delete_file cfg (fun _ => .err m) name bn now).1 =
      .error (.backend ("COS 请求失败: " ++ m))) := by
  refine ⟨?_, ?_, ?_⟩
  · intro resp hd
    rcases hd with h | h | h | h
    · simp [delete_file, hb, hh, cosSign_eq_ok cfg hc, h]
    · simp [delete_file, hb, hh, cosSign_eq_ok cfg hc, h]
    · simp [delete_file, hb, hh, cosSign_eq_ok cfg hc, h]
    · by_cases h3 : (resp.status == 200 || resp.status == 204 || resp.status == 404) = true
      · simp [delete_file, hb, hh, cosSign_eq_ok cfg hc, h3]
      · have h3f : (resp.status == 200 || resp.status == 204 || resp.status == 404) = false := by
          cases hx : (resp.status == 200 || resp.status == 204 || resp.status == 404)
          · rfl
          · exact absurd hx h3
        simp [delete_file, hb, hh, cosSign_eq_ok cfg hc, h3f, h]
  · intro resp h200 h204 h404 hfail
    have e200 : (resp.status == 200) = false := by simp [h200]
    have e204 : (resp.status == 204) = false := by simp [h204]
    have e404 : (resp.status == 404) = false := by simp [h404]
    simp [delete_file, hb, hh, cosSign_eq_ok cfg hc, e200, e204, e404, hfail]
  · intro m
    simp [delete_file, hb, hh, cosSign_eq_ok cfg hc]

/-- C8 (witness): the amended theorem at status 404 (idempotent delete) and at a
2xx status outside the explicit list. -/
theorem c8_delete_statuses_witness :
    getBucket cfgStd (some "b") = .ok "b" ∧ missingCreds cfgStd = false ∧
    (delete_file cfgStd (fun _ => .ok ⟨404, [], [], ""⟩) "k" (some "b") 1000).1 = .ok () :=
  ⟨rfl, rfl,
    (c8_delete_statuses cfgStd "k" (some "b") 1000 "b" "b.cos.ap-guangzhou.myqcloud.com"
      rfl rfl rfl).1 ⟨404, [], [], ""⟩ (Or.inr (Or.inr (Or.inl rfl)))⟩

/-- C9: `file_exists` returns `true` exactly when the HEAD response status is 200,
and returns `false` — without raising — for every other status and for every
transport-level failure. -/
theorem c9_exists_semantics (cfg : StorageConfig) (name : String) (bn : Option String)
    (now : Int) (bucket host : String) (resp : HttpResponse) (m : String)
    (hb : getBucket cfg bn = .ok bucket)
    (hh : getHost cfg bucket = .ok host)
    (hc : missingCreds cfg = false) :
    ((file_exists cfg (fun _ => .ok resp) name bn now).1 = .ok (resp.status == 200)) ∧
    ((file_exists cfg (fun _ => .err m) name bn now).1 = .ok false) := by
  constructor
  · simp [file_exists, hb, hh, cosSign_eq_ok cfg hc]
  · simp [file_exists, hb, hh, cosSign_eq_ok cfg hc]

/-- C9 (witness): an unreachable host yields `false`, not an exception. -/
theorem c9_exists_semantics_witness :
    getBucket cfgStd (some "b") = .ok "b" ∧ missingCreds cfgStd = false ∧
    (file_exists cfgStd (fun _ => .err "unreachable") "k" (some "b") 1000).1 = .ok false :=
  ⟨rfl, rfl,
    (c9_exists_semantics cfgStd "k" (some "b") 1000 "b" "b.cos.ap-guangzhou.myqcloud.com"
      ⟨200, [], [], ""⟩ "unreachable" rfl rfl rfl).2⟩

/-- C10 (counterexample): the claim ends "so the path never carries a doubled
leading slash" — but a key that itself starts with `//` is passed through
unchanged, and the request URL visibly carries the doubled slash. -/
theorem c10_doubleslash_counterexample :
    pathOf "//a" = "//a" ∧ pyStartsWith (pathOf "//a") "//" = true ∧
    (delete_file cfgStd oracleDown "//a" (some "b") 1000).2.map (fun r => r.url) =
      ["https://b.cos.ap-guangzhou.myqcloud.com//a"] :=
  ⟨rfl, rfl, by decide⟩

/-- C10 (amended): every operation (upload, download, delete, exists, append,
presign) signs over and composes its URL from the path
`"/" + key if not key.startswith("/") else key`: a key already starting with `/`
is used unchanged and `/` is prefixed otherwise, so the prefixing never
INTRODUCES a doubled leading slash (the path starts with `//` only when the key
itself does — a key starting with `//` is passed through). -/
theorem c10_path_prefixing (cfg : StorageConfig) (oracle : HttpRequest → HttpResult)
    (k : String) (bn : Option String) (now : Int) (bucket host : String)
    (data : List Nat) (p ein : Int) (file : StorageFile)
    (hb : getBucket cfg bn = .ok bucket)
    (hbu : getBucket cfg (pyOr bn file.bucket_name) = .ok bucket)
    (hh : getHost cfg bucket = .ok host)
    (hc : missingCreds cfg = false)
    (hfo : file.object_name = k) :
    (pyStartsWith k "/" = true → pathOf k = k) ∧
    (pyStartsWith k "/" = false → pathOf k = "/" ++ k) ∧
    (pyStartsWith k "//" = false → pyStartsWith (pathOf k) "//" = false) ∧
    ((delete_file cfg oracle k bn now).2.map (fun r => (r.method, r.url)) =
      [("DELETE", "https://" ++ host ++ quotePy (pathOf k) "/-_.~")]) ∧
    ((delete_file cfg oracle k bn now).2.map (fun r => r.headers.getLast?) =
      [some ("authorization",
        signedAuth cfg "DELETE" (pathOf k) [] ([("host", host)] ++ tokenHeaders cfg) 10000 now)]) ∧
    ((download_file cfg oracle k bn now).2.map (fun r => (r.method, r.url)) =
      [("GET", "https://" ++ host ++ quotePy (pathOf k) "/-_.~")]) ∧
    ((file_exists cfg oracle k bn now).2.map (fun r => (r.method, r.url)) =
      [("HEAD", "https://" ++ host ++ quotePy (pathOf k) "/-_.~")]) ∧
    ((append_file cfg oracle k data bn (some p) now).2.map (fun r => (r.method, r.url)) =
      [("POST", "https://" ++ host ++ quotePy (pathOf k) "/-_.~" ++ "?append=&position=" ++ toString p)]) ∧
    ((upload_file cfg oracle file bn now).2.map (fun r => (r.method, r.url)) =
      [("PUT", "https://" ++ host ++ quotePy (pathOf k) "/-_.~")]) ∧
    (getPresignedUrl cfg bucket k "GET" ein now =
      .ok ("https://" ++ host ++ quotePy (pathOf k) "/-_.~" ++ "?" ++
        signedAuth cfg "GET" (pathOf k) [] [("host", host)] ein now)) := by
  refine ⟨?_, ?_, ?_, ?_, ?_, ?_, ?_, ?_, ?_, ?_⟩
  · intro h
    simp [pathOf, h]
  · intro h
    simp [pathOf, h]
  · intro hkk
    by_cases hks : pyStartsWith k "/" = true
    · simpa [pathOf, hks] using hkk
    · have hks' : pyStartsWith k "/" = false := by
        cases hx : pyStartsWith k "/"
        · rfl
        · exact absurd hx hks
      have hp : pathOf k = "/" ++ k := by simp [pathOf, hks']
      rw [hp]
      unfold pyStartsWith at hks' ⊢
      rw [String.data_append]
      have hdd : ("//" : String).data = ['/', '/'] := rfl
      have hd : ("/" : String).data = ['/'] := rfl
      rw [hdd, hd]
      rw [hd] at hks'
      simp [List.isPrefixOf, hks']
  · simp [delete_file, hb, hh, cosSign_eq_ok cfg hc]
  · simp [delete_file, hb, hh, cosSign_eq_ok cfg hc, List.getLast?_concat]
    rw [← List.cons_append, List.getLast?_concat]
  · simp [download_file, hb, hh, cosSign_eq_ok cfg hc]
  · simp [file_exists, hb, hh, cosSign_eq_ok cfg hc]
  · simp [append_file, appendPost, hb, hh, cosSign_eq_ok cfg hc]
  · simp [upload_file, hbu, hh, cosSign_eq_ok cfg hc, hfo]
  · simp [getPresignedUrl, hh, cosSign_eq_ok cfg hc]

/-- C10 (witness): a key without a leading slash gets exactly one prefixed. -/
theorem c10_path_prefixing_witness :
    getBucket cfgStd (some "b") = .ok "b" ∧ missingCreds cfgStd = false ∧
    fileStd.object_name = "k.txt" ∧ pyStartsWith "k.txt" "/" = false ∧
    pathOf "k.txt" = "/" ++ "k.txt" :=
  ⟨rfl, rfl, rfl, rfl,
    (c10_path_prefixing cfgStd oracleDown "k.txt" (some "b") 1000 "b"
      "b.cos.ap-guangzhou.myqcloud.com" [] 0 3600 fileStd rfl rfl rfl rfl rfl).2.1 rfl⟩

end COS
